import Mathlib

/-!
Shallow embedding of the SafeJourney authentication backend
(auth middleware, auth controller, user model pre-save hook, global error
handler) for checking the natural-language specification against the code.

Modelling conventions:
* machine strings are Lean `String`; JS falsy string checks become `= ""`;
* timestamps are `Int` milliseconds;
* `Math.random()` is an explicit rational parameter `q` with `0 ≤ q < 1`;
* cryptographic values stored in the resetPasswordToken field are modelled
  by the inductive `ResetTok`: in the code a sha256 hex digest has 64 hex
  characters while `crypto.randomBytes(20).toString("hex")` has 40, so the
  two kinds of value can never collide; constructor disjointness models that;
* bcrypt hashes are modelled by the `Pw` inductive: `bcrypt.hash` output is
  never equal to any raw password string (distinct constructors);
* a JWT string `jwt.sign({id}, secret, {expiresIn})` is modelled as a plain
  string encoding of the payload id, the expiry timestamp and the secret;
  `jwt.verify` parses it back and checks the secret part and the expiry,
  which models signature plus expiry verification.
-/

namespace SafeJourney

/-- Values held by the resetPasswordToken field of a user document:
either the sha256 hex digest of some string (64 hex chars in the code) or
the hex encoding of 20 random bytes (40 hex chars in the code). -/
inductive ResetTok where
  | sha256Hex (data : String)
  | randomHex20 (r : Nat)
deriving DecidableEq, Repr

/-- Password values: a raw (plaintext) string, or the bcrypt hash of a
previous password value under a given salt. -/
inductive Pw where
  | raw (s : String)
  | bcryptHash (salt : Nat) (src : Pw)
deriving DecidableEq, Repr

/-- A persisted user document (src/models/user.model.ts plus the
resetPasswordToken / resetPasswordExpire fields written by the controller). -/
structure UserDoc where
  id : Nat
  fullname : String
  phonenumber : String
  email : String
  password : Pw
  resetPasswordToken : Option ResetTok := none
  resetPasswordExpire : Option Int := none
deriving DecidableEq, Repr

/-- A user document as attached to the request by the auth middleware:
the query uses select minus password, so every field but the password. -/
structure SafeUser where
  id : Nat
  fullname : String
  phonenumber : String
  email : String
  resetPasswordToken : Option ResetTok
  resetPasswordExpire : Option Int
deriving DecidableEq, Repr

def UserDoc.toSafe (u : UserDoc) : SafeUser :=
  ⟨u.id, u.fullname, u.phonenumber, u.email, u.resetPasswordToken, u.resetPasswordExpire⟩

/-- JSON values appearing in the response bodies of this API. -/
inductive JVal where
  | s (v : String)
  | b (v : Bool)
  | n (v : Int)
  | rtok (t : ResetTok)
  | userObj (id : Nat) (fullname : String) (email : String)
deriving DecidableEq, Repr

/-- An HTTP response: status code and JSON body (ordered key-value pairs). -/
structure HttpResp where
  status : Nat
  body : List (String × JVal)
deriving DecidableEq, Repr

/-- Errors flowing to the global error handler. `appError` is the
operational error class of src/utils/appError (fields statusCode, status,
message); the others model library or programming errors, which carry only
a message (their statusCode and status properties are undefined). -/
inductive ErrVal where
  | appError (statusCode : Nat) (status : String) (message : String)
  | jsonWebTokenError (message : String)
  | error (message : String)
deriving DecidableEq, Repr

def ErrVal.isAppError : ErrVal → Bool
  | .appError _ _ _ => true
  | _ => false

def ErrVal.statusCodeField : ErrVal → Option Nat
  | .appError sc _ _ => some sc
  | _ => none

def ErrVal.statusField : ErrVal → Option String
  | .appError _ st _ => some st
  | _ => none

def ErrVal.messageField : ErrVal → String
  | .appError _ _ m => m
  | .jsonWebTokenError m => m
  | .error m => m

/-- The environment variables the auth code reads. -/
structure Env where
  jwtSecret : Option String := none
  jwtRefreshSecret : Option String := none
  jwtExpiresIn : Option String := none
  jwtRefreshExpiresIn : Option String := none
deriving DecidableEq, Repr

/-- Duration strings accepted by the jsonwebtoken expiresIn option, in
milliseconds, for the values this code base uses. -/
def durationMs (s : String) : Int :=
  if s = "15m" then 900000
  else if s = "1h" then 3600000
  else if s = "7d" then 604800000
  else if s = "30d" then 2592000000
  else 0

/-- Split a character list at every occurrence of the separator, keeping
empty segments — the semantics of the JS split method with a one-character
separator (an empty input yields one empty segment). -/
def splitChars (sep : Char) : List Char → List (List Char)
  | [] => [[]]
  | c :: cs =>
    match splitChars sep cs with
    | [] => [[]]
    | seg :: rest => if c = sep then [] :: seg :: rest else (c :: seg) :: rest

/-- JS split with a one-character separator, as a String operation. -/
def jsSplit (s : String) (sep : Char) : List String :=
  (splitChars sep s.data).map String.mk

def leadMatch : List Char → List Char → Bool
  | [], _ => true
  | _ :: _, [] => false
  | c :: cs, d :: ds => c == d && leadMatch cs ds

/-- JS startsWith, over the character lists of the strings. -/
def jsStartsWith (s pre : String) : Bool :=
  leadMatch pre.data s.data

def natOfCharsAux : List Char → Nat → Option Nat
  | [], acc => some acc
  | c :: cs, acc =>
    if c.isDigit then natOfCharsAux cs (acc * 10 + (c.toNat - 48)) else none

/-- Parse a non-empty all-digit character list as a natural number. -/
def natOfChars : List Char → Option Nat
  | [] => none
  | cs => natOfCharsAux cs 0

/-- Parse an optionally minus-signed digit list as an integer. -/
def intOfChars : List Char → Option Int
  | '-' :: cs => (natOfChars cs).map (fun n => -(n : Int))
  | cs => (natOfChars cs).map (fun n => (n : Int))

def joinDots : List String → String
  | [] => ""
  | [s] => s
  | s :: rest => s ++ "." ++ joinDots rest

/-- Model of jwt.sign for a payload of the form id: the token string
records the id, the absolute expiry timestamp, and the secret (standing in
for the signature, which only a holder of the secret can produce). -/
def jwtSign (id : Nat) (secret : String) (exp : Int) : String :=
  "jwt." ++ toString id ++ "." ++ toString exp ++ "." ++ secret

/-- Model of jwt.verify: returns the payload id when the token parses, its
secret part matches the supplied secret and the expiry lies in the future;
otherwise none (the library throws in that case). -/
def jwtVerify (tok : String) (secret : String) (now : Int) : Option Nat :=
  match jsSplit tok '.' with
  | "jwt" :: idS :: expS :: rest =>
    match natOfChars idS.data, intOfChars expS.data with
    | some id, some e =>
      if joinDots rest = secret ∧ now < e then some id else none
    | _, _ => none
  | _ => none

/-- The pre-save hook of UserSchema (src/models/user.model.ts lines 44-55):
when the password path was modified by this save, replace it with a salted
bcrypt hash; otherwise leave the document untouched. -/
def userPreSave (modified : List String) (salt : Nat) (u : UserDoc) : UserDoc :=
  if "password" ∈ modified then
    { u with password := .bcryptHash salt u.password }
  else u

/-- Mongoose document save: apply the hook to the document and replace the
record with the matching id in the collection. -/
def updateById (db : List UserDoc) (i : Nat) (f : UserDoc → UserDoc) : List UserDoc :=
  db.map (fun v => if v.id == i then f v else v)

instance {α β : Type} [DecidableEq α] [DecidableEq β] : DecidableEq (Except α β) := fun
  | .error a, .error b =>
      match decEq a b with
      | isTrue h => isTrue (by rw [h])
      | isFalse h => isFalse (fun hh => h (Except.error.inj hh))
  | .error _, .ok _ => isFalse (fun hh => Except.noConfusion hh)
  | .ok _, .error _ => isFalse (fun hh => Except.noConfusion hh)
  | .ok a, .ok b =>
      match decEq a b with
      | isTrue h => isTrue (by rw [h])
      | isFalse h => isFalse (fun hh => h (Except.ok.inj hh))

/-- The outcome of a controller wrapped in catchAsync: either a response
was sent, or the async function rejected and the error was forwarded to
the error middleware; either way the database has its final contents. -/
structure CtrlOut where
  result : Except ErrVal HttpResp
  db : List UserDoc
deriving DecidableEq, Repr

/-- generateAccessToken (auth controller): signs the user id with
JWT_SECRET and expiry JWT_EXPIRES_IN defaulting to 1h, throwing when the
secret is not configured. -/
def generateAccessToken (env : Env) (now : Int) (id : Nat) : Except ErrVal String :=
  match env.jwtSecret with
  | none => .error (.error "JWT_SECRET is not defined in environment variables.")
  | some s => .ok (jwtSign id s (now + durationMs (env.jwtExpiresIn.getD "1h")))

/-- generateRefreshToken (auth controller): signs the user id with
JWT_REFRESH_SECRET, falling back to JWT_SECRET when unset, and expiry
JWT_REFRESH_EXPIRES_IN defaulting to 30d. -/
def generateRefreshToken (env : Env) (now : Int) (id : Nat) : Except ErrVal String :=
  match env.jwtRefreshSecret <|> env.jwtSecret with
  | none => .error (.error "JWT_SECRET or JWT_REFRESH_SECRET is not defined.")
  | some s => .ok (jwtSign id s (now + durationMs (env.jwtRefreshExpiresIn.getD "30d")))

/-- sendTokenResponse: issue an access and a refresh token and answer with
them plus a reduced user object. -/
def sendTokenResponse (env : Env) (now : Int) (user : UserDoc) (statusCode : Nat) :
    Except ErrVal HttpResp :=
  match generateAccessToken env now user.id with
  | .error e => .error e
  | .ok accessToken =>
    match generateRefreshToken env now user.id with
    | .error e => .error e
    | .ok refreshToken =>
      .ok ⟨statusCode,
        [("success", .b true),
         ("accessToken", .s accessToken),
         ("refreshToken", .s refreshToken),
         ("user", .userObj user.id user.fullname user.email)]⟩

/-- Result of the protect middleware: either a response was written and the
chain halted, or next() was called with the password-free user attached. -/
inductive ProtResult where
  | halted (resp : HttpResp)
  | proceeded (user : SafeUser)
deriving DecidableEq, Repr

/-- The protect middleware (auth.middleware.ts): extract the bearer token
from the Authorization header, verify it against JWT_SECRET, resolve the
user by the embedded id with the password deselected, and either halt with
a response or attach the user and continue. An absent or unparsable token
makes jwt.verify throw, which the catch block turns into a 401. -/
def protect (env : Env) (now : Int) (db : List UserDoc)
    (authorization : Option String) : ProtResult :=
  match authorization with
  | none => .halted ⟨401, [("message", .s "Not authorized, no token provided")]⟩
  | some h =>
    if jsStartsWith h "Bearer" then
      match env.jwtSecret with
      | none => .halted ⟨500, [("message", .s "Server configuration error.")]⟩
      | some secret =>
        match (jsSplit h ' ').get? 1 with
        | none => .halted ⟨401, [("message", .s "Not authorized, token failed")]⟩
        | some t =>
          match jwtVerify t secret now with
          | none => .halted ⟨401, [("message", .s "Not authorized, token failed")]⟩
          | some id =>
            match db.find? (fun v => v.id == id) with
            | none => .halted ⟨401, [("message", .s "Not authorized, user not found")]⟩
            | some u => .proceeded u.toSafe
    else .halted ⟨401, [("message", .s "Not authorized, no token provided")]⟩

/-- The signup request body. -/
structure SignupReq where
  fullname : String
  phonenumber : String
  email : String
  password : String
  passwordConfirm : String
deriving DecidableEq, Repr

/-- The signup controller: field validation, password confirmation,
duplicate-email check, then User.create (which runs the pre-save hook on
every initially set path) and sendTokenResponse with status 201. -/
def signup (env : Env) (now : Int) (newId : Nat) (salt : Nat)
    (db : List UserDoc) (req : SignupReq) : CtrlOut :=
  if req.fullname = "" ∨ req.phonenumber = "" ∨ req.email = "" ∨
      req.password = "" ∨ req.passwordConfirm = "" then
    ⟨.ok ⟨400, [("message", .s "Please enter all required fields.")]⟩, db⟩
  else if req.password ≠ req.passwordConfirm then
    ⟨.ok ⟨400, [("message", .s "Passwords do not match.")]⟩, db⟩
  else
    match db.find? (fun v => v.email == req.email) with
    | some _ => ⟨.ok ⟨400, [("message", .s "User already exists with this email.")]⟩, db⟩
    | none =>
      let user := userPreSave ["fullname", "phonenumber", "email", "password"] salt
        { id := newId, fullname := req.fullname, phonenumber := req.phonenumber,
          email := req.email, password := .raw req.password }
      let db' := db ++ [user]
      match sendTokenResponse env now user 201 with
      | .ok resp => ⟨.ok resp, db'⟩
      | .error e => ⟨.error e, db'⟩

/-- The refreshTokenRegenerate controller: 401 when the refresh token is
missing (falsy), then jwt.verify with the refresh secret falling back to
the access secret (a verification failure throws out to catchAsync), then
user resolution (401 when gone) and a fresh access token. -/
def refreshTokenRegenerate (env : Env) (now : Int) (db : List UserDoc)
    (refreshToken : Option String) : CtrlOut :=
  match refreshToken with
  | none => ⟨.ok ⟨401, [("message", .s "Not authorized, refresh token missing.")]⟩, db⟩
  | some tok =>
    if tok = "" then
      ⟨.ok ⟨401, [("message", .s "Not authorized, refresh token missing.")]⟩, db⟩
    else
      match env.jwtRefreshSecret <|> env.jwtSecret with
      | none => ⟨.error (.jsonWebTokenError "secret or public key must be provided"), db⟩
      | some secret =>
        match jwtVerify tok secret now with
        | none => ⟨.error (.jsonWebTokenError "jwt malformed, invalid signature or expired"), db⟩
        | some id =>
          match db.find? (fun v => v.id == id) with
          | none => ⟨.ok ⟨401, [("message", .s "Invalid refresh token: User not found.")]⟩, db⟩
          | some user =>
            match generateAccessToken env now user.id with
            | .error e => ⟨.error e, db⟩
            | .ok newAccessToken =>
              ⟨.ok ⟨200, [("success", .b true), ("accessToken", .s newAccessToken)]⟩, db⟩

/-- The sendOTP controller: on an unknown email, answer 200 with a generic
message and touch nothing; otherwise draw a 6-digit code from
Math.floor(100000 + Math.random() * 900000), store its sha256 digest and a
now + 10 minutes expiry on the user, save, and answer 200 with the
dev-only test_otp field carrying the plaintext code.
Math.random() yields a double of the form k / 2 ^ 53 with 0 ≤ k < 2 ^ 53;
with exact arithmetic Math.floor(100000 + (k / 2 ^ 53) * 900000) is
100000 + k * 900000 / 2 ^ 53 in integer division, which is how the drawn
code is computed here. -/
def sendOTP (db : List UserDoc) (email : String) (k : Nat) (now : Int) : CtrlOut :=
  match db.find? (fun v => v.email == email) with
  | none =>
    ⟨.ok ⟨200, [("success", .b true), ("message", .s "If user exists, OTP has been sent.")]⟩, db⟩
  | some user =>
    let otp : Nat := 100000 + k * 900000 / 2 ^ 53
    let otpStr := toString otp
    let db' := updateById db user.id (fun v =>
      userPreSave ["resetPasswordToken", "resetPasswordExpire"] 0
        { v with resetPasswordToken := some (.sha256Hex otpStr),
                 resetPasswordExpire := some (now + 10 * 60 * 1000) })
    ⟨.ok ⟨200, [("success", .b true), ("message", .s "OTP token sent to email."),
                ("test_otp", .s otpStr)]⟩, db'⟩

/-- The JS comparison resetPasswordExpire < new Date(now): false when the
field is unset (undefined compares false against any date). -/
def expiredAt (expire : Option Int) (now : Int) : Bool :=
  match expire with
  | some e => e < now
  | none => false

/-- The verifyOTP controller: hash the candidate code, find the user by
email, fail 400 when the user is unknown, the stored hash differs, or the
stored expiry lies in the past (an unset expiry compares false in JS and
so does not fail by itself); on success overwrite the stored hash with a
fresh 20-random-byte hex ticket, save, and return the ticket. -/
def verifyOTP (db : List UserDoc) (email otp : String) (now : Int) (r : Nat) : CtrlOut :=
  let hashedOTP := ResetTok.sha256Hex otp
  let failResp : HttpResp := ⟨400, [("message", .s "Invalid or expired OTP/Code.")]⟩
  match db.find? (fun v => v.email == email) with
  | none => ⟨.ok failResp, db⟩
  | some user =>
    if user.resetPasswordToken ≠ some hashedOTP ∨
        expiredAt user.resetPasswordExpire now then
      ⟨.ok failResp, db⟩
    else
      let ticket := ResetTok.randomHex20 r
      let db' := updateById db user.id (fun v =>
        userPreSave ["resetPasswordToken"] 0
          { v with resetPasswordToken := some ticket })
      ⟨.ok ⟨200, [("success", .b true),
                  ("message", .s "OTP verified successfully. Use the temporary token for reset."),
                  ("temporaryResetToken", .rtok ticket)]⟩, db'⟩

/-- The resetPassword controller: 400 unless the new password is non-empty
(truthy) and equals its confirmation; find the user whose stored
resetPasswordToken equals the submitted ticket (no expiry check, per the
in-code comment); 400 when none matches; otherwise set the new password,
clear both reset fields, save (the hook re-hashes the password), and log
the user in with a fresh token pair. -/
def resetPassword (env : Env) (now : Int) (salt : Nat) (db : List UserDoc)
    (temporaryResetToken : ResetTok) (newPassword confirmPassword : String) : CtrlOut :=
  if newPassword = "" ∨ newPassword ≠ confirmPassword then
    ⟨.ok ⟨400, [("message", .s "Passwords do not match or new password is empty.")]⟩, db⟩
  else
    match db.find? (fun v => decide (v.resetPasswordToken = some temporaryResetToken)) with
    | none =>
      ⟨.ok ⟨400, [("message", .s "Invalid or expired temporary reset token.")]⟩, db⟩
    | some user =>
      let upd : UserDoc → UserDoc := fun v =>
        userPreSave ["password", "resetPasswordToken", "resetPasswordExpire"] salt
          { v with password := .raw newPassword,
                   resetPasswordToken := none, resetPasswordExpire := none }
      let db' := updateById db user.id upd
      match sendTokenResponse env now (upd user) 200 with
      | .ok resp => ⟨.ok resp, db'⟩
      | .error e => ⟨.error e, db'⟩

/-- The global error handler (src/middlewares/globalErrorHandler.ts): read
statusCode and status off the error with 500 and error as fallbacks, write
the operational response when the error is an AppError, and then — the
branch does not return — write the generic 500 response as well. The
returned list holds every write the handler attempts, in order. -/
def globalErrorHandler (err : ErrVal) : List HttpResp :=
  let statusCode := err.statusCodeField.getD 500
  let status := err.statusField.getD "error"
  (if err.isAppError then
    [⟨statusCode, [("status", .s status), ("message", .s err.messageField)]⟩]
   else []) ++
  [⟨500, [("status", .s "error"), ("message", .s "Something went wrong")]⟩]

/-- Modelled from the spec: catchAsync (src/utils/catchAsync, not present
under src/) wraps an async controller and forwards a rejected promise to
the error middleware, per the error-handling design (operational versus
unknown errors) and the in-code comment that jwt.verify throwing is
handled by catchAsync. The pipeline therefore answers with the single
controller response on success and with every write the global error
handler attempts on a thrown error. -/
def dispatch (o : CtrlOut) : List HttpResp × List UserDoc :=
  match o.result with
  | .ok resp => ([resp], o.db)
  | .error e => (globalErrorHandler e, o.db)

/-- The write operations of the auth API, with their non-deterministic
inputs (fresh ids, salts, randomness, clock) made explicit. -/
inductive AuthOp where
  | opSignup (req : SignupReq) (newId salt : Nat)
  | opSendOTP (email : String) (k : Nat)
  | opVerifyOTP (email otp : String) (r : Nat)
  | opResetPassword (ticket : ResetTok) (newPw confirmPw : String) (salt : Nat)
  | opRefresh (refreshToken : Option String)

/-- Run one auth operation against the store. -/
def runOp (env : Env) (now : Int) (op : AuthOp) (db : List UserDoc) : CtrlOut :=
  match op with
  | .opSignup req newId salt => signup env now newId salt db req
  | .opSendOTP email k => sendOTP db email k now
  | .opVerifyOTP email otp r => verifyOTP db email otp now r
  | .opResetPassword ticket newPw confirmPw salt =>
      resetPassword env now salt db ticket newPw confirmPw
  | .opRefresh rt => refreshTokenRegenerate env now db rt

/-- The operation that consumes a reset ticket (the excepted write in the
reset-OTP invalidation invariant). -/
def AuthOp.isConsume : AuthOp → Prop
  | .opResetPassword _ _ _ _ => True
  | _ => False

/-- A post-state user record whose password agrees with the record of the
same id in the pre-state (so this write did not change that password). -/
def passwordPreserved (db : List UserDoc) (u' : UserDoc) : Prop :=
  ∃ u ∈ db, u.id = u'.id ∧ u.password = u'.password

/-- A fixture user for concrete evaluations. -/
def exUser : UserDoc :=
  ⟨1, "A B", "+100", "a@b.com", .bcryptHash 7 (.raw "secret1"), none, none⟩

/-- A one-user fixture store. -/
def exDb : List UserDoc := [exUser]

/-- A fixture environment with both signing secrets configured. -/
def exEnv : Env := ⟨some "s", some "rs", none, none⟩

theorem find?_updateById (db : List UserDoc) (i : Nat) (f : UserDoc → UserDoc)
    (p : UserDoc → Bool)
    (hp : ∀ v, p (if v.id == i then f v else v) = p v) :
    (updateById db i f).find? p
      = (db.find? p).map (fun v => if v.id == i then f v else v) := by
  unfold updateById
  rw [List.find?_map]
  have hfun : (p ∘ fun v => if v.id == i then f v else v) = p := funext hp
  rw [hfun]

theorem mem_updateById {v' : UserDoc} {db : List UserDoc} {i : Nat}
    {f : UserDoc → UserDoc} :
    v' ∈ updateById db i f ↔ ∃ v ∈ db, (if v.id == i then f v else v) = v' := by
  simp [updateById, List.mem_map]

theorem find_email_after_sendOTP
    (db : List UserDoc) (email : String) (k : Nat) (now : Int) (u : UserDoc)
    (hu : db.find? (fun v => v.email == email) = some u) :
    (sendOTP db email k now).db.find? (fun v => v.email == email)
      = some { u with
          resetPasswordToken :=
            some (.sha256Hex (toString (100000 + k * 900000 / 2 ^ 53))),
          resetPasswordExpire := some (now + 10 * 60 * 1000) } := by
  have hp : ∀ v : UserDoc,
      ((fun v : UserDoc => v.email == email)
        (if v.id == u.id then
          userPreSave ["resetPasswordToken", "resetPasswordExpire"] 0
            { v with
              resetPasswordToken :=
                some (.sha256Hex (toString (100000 + k * 900000 / 2 ^ 53))),
              resetPasswordExpire := some (now + 10 * 60 * 1000) }
         else v))
        = (fun v : UserDoc => v.email == email) v := by
    intro v
    by_cases hv : (v.id == u.id) = true <;> simp [hv, userPreSave]
  simp only [sendOTP]
  rw [hu]
  simp only []
  rw [find?_updateById _ _ _ _ hp, hu]
  simp only [Option.map_some']
  rw [if_pos (by simp), userPreSave, if_neg (by decide)]

/-- C10: when an operational AppError reaches the global error handler, the
handler first writes the operational response built from the status code,
status and message of the error, and then — because the AppError branch
does not return — unconditionally attempts the generic 500 response as
well; and for every error whatsoever the generic 500 write is among the
attempted writes, so no error ever receives only its operational
response. -/
theorem globalErrorHandler_always_writes_generic :
    (∀ sc : Nat, ∀ st m : String,
      globalErrorHandler (.appError sc st m)
        = [⟨sc, [("status", .s st), ("message", .s m)]⟩,
           ⟨500, [("status", .s "error"), ("message", .s "Something went wrong")]⟩]) ∧
    (∀ e : ErrVal,
      (⟨500, [("status", .s "error"), ("message", .s "Something went wrong")]⟩ : HttpResp)
        ∈ globalErrorHandler e) := by
  constructor
  · intro sc st m
    simp [globalErrorHandler, ErrVal.isAppError, ErrVal.statusCodeField,
      ErrVal.statusField, ErrVal.messageField]
  · intro e
    cases e <;> simp [globalErrorHandler, ErrVal.isAppError]

/-- C7: a save replaces the stored password by a salted bcrypt hash exactly
when the password path was modified by that save; a save touching only
other paths leaves the whole document, in particular the already-hashed
password, unchanged. -/
theorem userPreSave_hashes_iff_modified (modified : List String) (salt : Nat)
    (u : UserDoc) :
    ("password" ∈ modified →
      userPreSave modified salt u
        = { u with password := .bcryptHash salt u.password }) ∧
    ("password" ∉ modified → userPreSave modified salt u = u) := by
  constructor <;> intro h <;> simp [userPreSave, h]

/-- Witness for C7: a password-modifying save hashes with the fresh salt,
and the reset-field-only save of the sendOTP flow keeps the stored hash
byte for byte. -/
theorem userPreSave_hashes_iff_modified_witness :
    userPreSave ["password"] 5 exUser
      = { exUser with password := .bcryptHash 5 exUser.password } ∧
    userPreSave ["resetPasswordToken", "resetPasswordExpire"] 5 exUser = exUser := by
  refine ⟨(userPreSave_hashes_iff_modified ["password"] 5 exUser).1 (by decide),
          (userPreSave_hashes_iff_modified
            ["resetPasswordToken", "resetPasswordExpire"] 5 exUser).2 (by decide)⟩

/-- C1 counterexample: at a concrete store and inputs, the sendOTP
response for an unknown email and the success response for an existing
email are both 200 but have different bodies (different message, and the
real send additionally carries the plaintext code in test_otp), so the
response does reveal whether the account exists. -/
theorem sendOTP_enumeration_body_differs :
    (sendOTP exDb "x@y.com" 0 0).result
      = .ok ⟨200, [("success", .b true),
                   ("message", .s "If user exists, OTP has been sent.")]⟩ ∧
    (sendOTP exDb "a@b.com" 0 0).result
      = .ok ⟨200, [("success", .b true),
                   ("message", .s "OTP token sent to email."),
                   ("test_otp", .s "100000")]⟩ ∧
    (sendOTP exDb "x@y.com" 0 0).result ≠ (sendOTP exDb "a@b.com" 0 0).result := by
  refine ⟨by decide, by decide, by decide⟩

/-- C1 amended: a sendOTP call for an email belonging to no user answers
with the same 200 status as a real send and performs no write, but its
body is the fixed generic message, while every real send answers 200 with
a different body (other message text plus the test_otp field), so only the
status, not the body, is enumeration-safe. -/
theorem sendOTP_enumeration_status_and_no_write
    (db : List UserDoc) (email : String) (k : Nat) (now : Int)
    (h : db.find? (fun v => v.email == email) = none) :
    sendOTP db email k now
      = ⟨.ok ⟨200, [("success", .b true),
                    ("message", .s "If user exists, OTP has been sent.")]⟩, db⟩ ∧
    (∀ db2 : List UserDoc, ∀ email2 : String, ∀ k2 : Nat, ∀ now2 : Int, ∀ u : UserDoc,
      db2.find? (fun v => v.email == email2) = some u →
      ∃ resp : HttpResp, (sendOTP db2 email2 k2 now2).result = .ok resp ∧
        resp.status = 200 ∧
        resp ≠ ⟨200, [("success", .b true),
                      ("message", .s "If user exists, OTP has been sent.")]⟩) := by
  constructor
  · simp only [sendOTP]
    rw [h]
  · intro db2 email2 k2 now2 u hu
    refine ⟨⟨200, [("success", .b true), ("message", .s "OTP token sent to email."),
        ("test_otp", .s (toString (100000 + k2 * 900000 / 2 ^ 53)))]⟩, ?_, rfl, ?_⟩
    · simp only [sendOTP]
      rw [hu]
    · intro hEq
      have := congrArg HttpResp.body hEq
      simp at this

/-- Witness for the amended C1 theorem at the fixture store. -/
theorem sendOTP_enumeration_status_witness :
    sendOTP exDb "x@y.com" 0 0
      = ⟨.ok ⟨200, [("success", .b true),
                    ("message", .s "If user exists, OTP has been sent.")]⟩, exDb⟩ :=
  (sendOTP_enumeration_status_and_no_write exDb "x@y.com" 0 0 (by decide)).1

/-- C8: for an existing email, sendOTP draws a code in the 6-digit range
100000 to 999999, and the persisted user record afterwards holds the
sha256 digest of the code in resetPasswordToken and now plus ten minutes
in resetPasswordExpire. -/
theorem sendOTP_generates_and_stores
    (db : List UserDoc) (email : String) (k : Nat) (now : Int) (u : UserDoc)
    (hu : db.find? (fun v => v.email == email) = some u)
    (hk : k < 2 ^ 53) :
    100000 ≤ 100000 + k * 900000 / 2 ^ 53 ∧
    100000 + k * 900000 / 2 ^ 53 ≤ 999999 ∧
    (sendOTP db email k now).db.find? (fun v => v.email == email)
      = some { u with
          resetPasswordToken :=
            some (.sha256Hex (toString (100000 + k * 900000 / 2 ^ 53))),
          resetPasswordExpire := some (now + 10 * 60 * 1000) } := by
  refine ⟨Nat.le_add_right _ _, ?_, ?_⟩
  · have h9 : k * 900000 / 2 ^ 53 < 900000 := by
      apply Nat.div_lt_of_lt_mul
      exact mul_lt_mul_of_pos_right hk (by norm_num)
    omega
  · exact find_email_after_sendOTP db email k now u hu

/-- Witness for C8 at the fixture store with randomness k = 0. -/
theorem sendOTP_generates_and_stores_witness :
    100000 ≤ 100000 + 0 * 900000 / 2 ^ 53 ∧
    100000 + 0 * 900000 / 2 ^ 53 ≤ 999999 ∧
    (sendOTP exDb "a@b.com" 0 9).db.find? (fun v => v.email == "a@b.com")
      = some { exUser with
          resetPasswordToken :=
            some (.sha256Hex (toString (100000 + 0 * 900000 / 2 ^ 53))),
          resetPasswordExpire := some (9 + 10 * 60 * 1000) } :=
  sendOTP_generates_and_stores exDb "a@b.com" 0 9 exUser (by decide) (by norm_num)

/-- C9: a signup request whose email already belongs to an existing user
leaves the store byte for byte unchanged (no new record, no mutation of
the existing one) and is answered 400; when the request is otherwise
well-formed the rejection is the duplicate-resource message. -/
theorem signup_duplicate_email_rejected
    (env : Env) (now : Int) (newId salt : Nat) (db : List UserDoc)
    (req : SignupReq) (w : UserDoc)
    (h : db.find? (fun v => v.email == req.email) = some w) :
    (signup env now newId salt db req).db = db ∧
    (∃ resp : HttpResp,
      (signup env now newId salt db req).result = .ok resp ∧ resp.status = 400) ∧
    ((req.fullname ≠ "" ∧ req.phonenumber ≠ "" ∧ req.email ≠ "" ∧
      req.password ≠ "" ∧ req.passwordConfirm ≠ "" ∧
      req.password = req.passwordConfirm) →
      (signup env now newId salt db req).result
        = .ok ⟨400, [("message", .s "User already exists with this email.")]⟩) := by
  by_cases h1 : req.fullname = "" ∨ req.phonenumber = "" ∨ req.email = "" ∨
      req.password = "" ∨ req.passwordConfirm = ""
  · have hs : signup env now newId salt db req
        = ⟨.ok ⟨400, [("message", .s "Please enter all required fields.")]⟩, db⟩ := by
      simp [signup, h1]
    exact ⟨by rw [hs],
      ⟨⟨400, [("message", .s "Please enter all required fields.")]⟩, by rw [hs], rfl⟩,
      fun hv => absurd h1 (by tauto)⟩
  · by_cases h2 : req.password = req.passwordConfirm
    · have hs : signup env now newId salt db req
          = ⟨.ok ⟨400, [("message", .s "User already exists with this email.")]⟩, db⟩ := by
        simp only [signup, if_neg h1, if_neg (not_not_intro h2)]
        rw [h]
      exact ⟨by rw [hs],
        ⟨⟨400, [("message", .s "User already exists with this email.")]⟩, by rw [hs], rfl⟩,
        fun _ => by rw [hs]⟩
    · have hs : signup env now newId salt db req
          = ⟨.ok ⟨400, [("message", .s "Passwords do not match.")]⟩, db⟩ := by
        simp [signup, h1, h2]
      exact ⟨by rw [hs],
        ⟨⟨400, [("message", .s "Passwords do not match.")]⟩, by rw [hs], rfl⟩,
        fun hv => absurd h2 (by tauto)⟩

/-- Witness for C9: a well-formed duplicate signup at the fixture store. -/
theorem signup_duplicate_email_rejected_witness :
    (signup exEnv 0 2 3 exDb ⟨"C D", "+200", "a@b.com", "pw1234", "pw1234"⟩).db = exDb ∧
    (∃ resp : HttpResp,
      (signup exEnv 0 2 3 exDb ⟨"C D", "+200", "a@b.com", "pw1234", "pw1234"⟩).result
        = .ok resp ∧ resp.status = 400) ∧
    ((("C D" : String) ≠ "" ∧ ("+200" : String) ≠ "" ∧ ("a@b.com" : String) ≠ "" ∧
      ("pw1234" : String) ≠ "" ∧ ("pw1234" : String) ≠ "" ∧
      ("pw1234" : String) = "pw1234") →
      (signup exEnv 0 2 3 exDb ⟨"C D", "+200", "a@b.com", "pw1234", "pw1234"⟩).result
        = .ok ⟨400, [("message", .s "User already exists with this email.")]⟩) :=
  signup_duplicate_email_rejected exEnv 0 2 3 exDb
    ⟨"C D", "+200", "a@b.com", "pw1234", "pw1234"⟩ exUser (by decide)

theorem refresh_db_unchanged (env : Env) (now : Int) (db : List UserDoc)
    (rt : Option String) : (refreshTokenRegenerate env now db rt).db = db := by
  unfold refreshTokenRegenerate
  repeat' split
  all_goals rfl

theorem passwordPreserved_updateById (db : List UserDoc) (i : Nat)
    (f : UserDoc → UserDoc)
    (hf : ∀ v, (f v).id = v.id ∧ (f v).password = v.password) :
    ∀ u' ∈ updateById db i f, passwordPreserved db u' := by
  intro u' hu'
  rcases mem_updateById.mp hu' with ⟨v, hv, heq⟩
  by_cases hid : (v.id == i) = true
  · exact ⟨v, hv, by rw [← heq]; simp [hid, (hf v).1],
      by rw [← heq]; simp [hid, (hf v).2]⟩
  · exact ⟨v, hv, by rw [← heq]; simp [hid], by rw [← heq]; simp [hid]⟩

/-- C2: for every write of any auth operation except the reset-OTP
consuming resetPassword, every user record of the post-state whose
password was changed (or created) by that write has its resetPasswordToken
and resetPasswordExpire fields cleared in that same write. -/
theorem password_write_clears_reset_state
    (env : Env) (now : Int) (op : AuthOp) (db : List UserDoc)
    (hop : ¬ op.isConsume) :
    ∀ u' ∈ (runOp env now op db).db, ¬ passwordPreserved db u' →
      u'.resetPasswordToken = none ∧ u'.resetPasswordExpire = none := by
  intro u' hu' hnp
  cases op with
  | opSignup req newId salt =>
    simp only [runOp, signup] at hu'
    split at hu'
    · exact absurd ⟨u', hu', rfl, rfl⟩ hnp
    · split at hu'
      · exact absurd ⟨u', hu', rfl, rfl⟩ hnp
      · split at hu'
        · exact absurd ⟨u', hu', rfl, rfl⟩ hnp
        · split at hu' <;>
          · rcases List.mem_append.mp hu' with hin | hin
            · exact absurd ⟨u', hin, rfl, rfl⟩ hnp
            · have h0 := List.mem_singleton.mp hin
              subst h0
              simp only [userPreSave]
              rw [if_pos (by decide)]
              exact ⟨rfl, rfl⟩
  | opSendOTP email k =>
    simp only [runOp, sendOTP] at hu'
    split at hu'
    · exact absurd ⟨u', hu', rfl, rfl⟩ hnp
    · have := passwordPreserved_updateById db _ _
        (fun v => by constructor <;> simp [userPreSave]) u' hu'
      exact absurd this hnp
  | opVerifyOTP email otp r =>
    simp only [runOp, verifyOTP] at hu'
    split at hu'
    · exact absurd ⟨u', hu', rfl, rfl⟩ hnp
    · split at hu'
      · exact absurd ⟨u', hu', rfl, rfl⟩ hnp
      · have := passwordPreserved_updateById db _ _
          (fun v => by constructor <;> simp [userPreSave]) u' hu'
        exact absurd this hnp
  | opResetPassword ticket newPw confirmPw salt => exact absurd trivial hop
  | opRefresh rt =>
    simp only [runOp] at hu'
    rw [refresh_db_unchanged] at hu'
    exact absurd ⟨u', hu', rfl, rfl⟩ hnp

/-- Witness for C2: the signup write at the fixture store creates a user
with a fresh password and both reset-OTP fields cleared. -/
theorem password_write_clears_reset_state_witness :
    (⟨2, "C D", "+200", "c@d.com", .bcryptHash 3 (.raw "pw1234"), none, none⟩ :
        UserDoc).resetPasswordToken = none ∧
    (⟨2, "C D", "+200", "c@d.com", .bcryptHash 3 (.raw "pw1234"), none, none⟩ :
        UserDoc).resetPasswordExpire = none :=
  password_write_clears_reset_state exEnv 0
    (.opSignup ⟨"C D", "+200", "c@d.com", "pw1234", "pw1234"⟩ 2 3) exDb
    (by simp [AuthOp.isConsume])
    ⟨2, "C D", "+200", "c@d.com", .bcryptHash 3 (.raw "pw1234"), none, none⟩
    (by decide) (by unfold passwordPreserved; decide)

/-- C5: resetPassword answers 400 and writes nothing unless the new
password is non-empty and equals its confirmation; answers 400 with the
invalid-token message and writes nothing when no user record stores the
submitted ticket; and otherwise re-hashes the new password, clears both
reset-OTP fields of the matched user and answers 200 with a fresh access
and refresh token pair. -/
theorem resetPassword_spec
    (env : Env) (now : Int) (salt : Nat) (db : List UserDoc)
    (ticket : ResetTok) (newPw confirmPw : String) (sec : String)
    (hsec : env.jwtSecret = some sec) :
    ((newPw = "" ∨ newPw ≠ confirmPw) →
      resetPassword env now salt db ticket newPw confirmPw
        = ⟨.ok ⟨400, [("message",
            .s "Passwords do not match or new password is empty.")]⟩, db⟩) ∧
    (newPw ≠ "" → newPw = confirmPw →
      db.find? (fun v => decide (v.resetPasswordToken = some ticket)) = none →
      resetPassword env now salt db ticket newPw confirmPw
        = ⟨.ok ⟨400, [("message",
            .s "Invalid or expired temporary reset token.")]⟩, db⟩) ∧
    (∀ u : UserDoc, newPw ≠ "" → newPw = confirmPw →
      db.find? (fun v => decide (v.resetPasswordToken = some ticket)) = some u →
      (resetPassword env now salt db ticket newPw confirmPw).result
        = .ok ⟨200,
            [("success", .b true),
             ("accessToken",
               .s (jwtSign u.id sec (now + durationMs (env.jwtExpiresIn.getD "1h")))),
             ("refreshToken",
               .s (jwtSign u.id (env.jwtRefreshSecret.getD sec)
                 (now + durationMs (env.jwtRefreshExpiresIn.getD "30d")))),
             ("user", .userObj u.id u.fullname u.email)]⟩ ∧
      { u with password := .bcryptHash salt (.raw newPw),
               resetPasswordToken := none, resetPasswordExpire := none }
        ∈ (resetPassword env now salt db ticket newPw confirmPw).db) := by
  refine ⟨fun h => ?_, fun h1 h2 hnone => ?_, fun u h1 h2 hsome => ?_⟩
  · simp only [resetPassword]
    rw [if_pos h]
  · simp only [resetPassword]
    rw [if_neg (not_or.mpr ⟨h1, not_not_intro h2⟩), hnone]
  · have hupd :
        userPreSave ["password", "resetPasswordToken", "resetPasswordExpire"] salt
          { u with password := .raw newPw,
                   resetPasswordToken := none, resetPasswordExpire := none }
        = { u with password := .bcryptHash salt (.raw newPw),
                   resetPasswordToken := none, resetPasswordExpire := none } := by
      simp only [userPreSave]
      rw [if_pos (by decide)]
    have hor : (env.jwtRefreshSecret <|> some sec)
        = some (env.jwtRefreshSecret.getD sec) := by
      cases env.jwtRefreshSecret <;> simp
    constructor
    · simp only [resetPassword]
      rw [if_neg (not_or.mpr ⟨h1, not_not_intro h2⟩), hsome]
      simp only [sendTokenResponse, generateAccessToken, generateRefreshToken, hsec, hor, hupd]
    · simp only [resetPassword]
      rw [if_neg (not_or.mpr ⟨h1, not_not_intro h2⟩), hsome]
      simp only [sendTokenResponse, generateAccessToken, generateRefreshToken, hsec, hor, hupd]
      exact mem_updateById.mpr
        ⟨u, List.mem_of_find?_eq_some hsome, by rw [if_pos (by simp)]; exact hupd⟩

/-- Witness for C5: consuming a stored ticket at a concrete store sets the
re-hashed password, clears the reset fields and returns a token pair. -/
theorem resetPassword_spec_witness :
    ({ exUser with resetPasswordToken := some (.randomHex20 99) } : UserDoc).id = 1 ∧
    (resetPassword exEnv 0 4 [{ exUser with resetPasswordToken := some (.randomHex20 99) }]
        (.randomHex20 99) "newpw1" "newpw1").result
      = .ok ⟨200,
          [("success", .b true),
           ("accessToken", .s (jwtSign 1 "s" (0 + durationMs (Option.getD none "1h")))),
           ("refreshToken", .s (jwtSign 1 (Option.getD (some "rs") "s")
             (0 + durationMs (Option.getD none "30d")))),
           ("user", .userObj 1 "A B" "a@b.com")]⟩ ∧
    { ({ exUser with resetPasswordToken := some (.randomHex20 99) } : UserDoc) with
        password := .bcryptHash 4 (.raw "newpw1"),
        resetPasswordToken := none, resetPasswordExpire := none }
      ∈ (resetPassword exEnv 0 4 [{ exUser with resetPasswordToken := some (.randomHex20 99) }]
          (.randomHex20 99) "newpw1" "newpw1").db := by
  have h := (resetPassword_spec exEnv 0 4
    [{ exUser with resetPasswordToken := some (.randomHex20 99) }]
    (.randomHex20 99) "newpw1" "newpw1" "s" rfl).2.2
    { exUser with resetPasswordToken := some (.randomHex20 99) }
    (by decide) rfl (by decide)
  exact ⟨rfl, h.1, h.2⟩

/-- C4: with the access secret configured, the auth gate answers 401 and
never calls the downstream handler when the Authorization header is
absent, does not start with Bearer, carries no token part, fails
signature or expiry verification, or names a user id with no record; on
success it attaches the resolved user minus the password field and calls
the downstream handler. -/
theorem protect_gate_spec
    (env : Env) (now : Int) (db : List UserDoc) (authorization : Option String)
    (sec : String) (hsec : env.jwtSecret = some sec) :
    (authorization = none →
      protect env now db authorization
        = .halted ⟨401, [("message", .s "Not authorized, no token provided")]⟩) ∧
    (∀ h : String, authorization = some h → jsStartsWith h "Bearer" = false →
      protect env now db authorization
        = .halted ⟨401, [("message", .s "Not authorized, no token provided")]⟩) ∧
    (∀ h : String, authorization = some h → jsStartsWith h "Bearer" = true →
      (jsSplit h ' ').get? 1 = none →
      protect env now db authorization
        = .halted ⟨401, [("message", .s "Not authorized, token failed")]⟩) ∧
    (∀ h t : String, authorization = some h → jsStartsWith h "Bearer" = true →
      (jsSplit h ' ').get? 1 = some t → jwtVerify t sec now = none →
      protect env now db authorization
        = .halted ⟨401, [("message", .s "Not authorized, token failed")]⟩) ∧
    (∀ h t : String, ∀ id : Nat, authorization = some h →
      jsStartsWith h "Bearer" = true →
      (jsSplit h ' ').get? 1 = some t → jwtVerify t sec now = some id →
      db.find? (fun v => v.id == id) = none →
      protect env now db authorization
        = .halted ⟨401, [("message", .s "Not authorized, user not found")]⟩) ∧
    (∀ h t : String, ∀ id : Nat, ∀ u : UserDoc, authorization = some h →
      jsStartsWith h "Bearer" = true →
      (jsSplit h ' ').get? 1 = some t → jwtVerify t sec now = some id →
      db.find? (fun v => v.id == id) = some u →
      protect env now db authorization = .proceeded u.toSafe) := by
  refine ⟨?_, ?_, ?_, ?_, ?_, ?_⟩
  · intro ha
    subst ha
    rfl
  · intro h ha hb
    subst ha
    simp only [protect, hb]
    rfl
  · intro h ha hb hget
    subst ha
    simp only [protect, hb, hsec, hget, if_true]
  · intro h t ha hb hget hver
    subst ha
    simp only [protect, hb, hsec, hget, hver, if_true]
  · intro h t id ha hb hget hver hfind
    subst ha
    simp only [protect, hb, hsec, hget, hver, hfind, if_true]
  · intro h t id u ha hb hget hver hfind
    subst ha
    simp only [protect, hb, hsec, hget, hver, hfind, if_true]

/-- Witness for C4: a signed unexpired token for the fixture user passes
the gate and attaches the password-free record; a garbage token halts with
401. -/
theorem protect_gate_spec_witness :
    protect exEnv 0 exDb (some ("Bearer " ++ jwtSign 1 "s" 100))
      = .proceeded exUser.toSafe ∧
    protect exEnv 0 exDb (some "Bearer garbage")
      = .halted ⟨401, [("message", .s "Not authorized, token failed")]⟩ := by
  constructor
  · exact (protect_gate_spec exEnv 0 exDb (some ("Bearer " ++ jwtSign 1 "s" 100))
      "s" rfl).2.2.2.2.2 ("Bearer " ++ jwtSign 1 "s" 100) (jwtSign 1 "s" 100) 1 exUser
      rfl (by decide) (by decide) (by decide) (by decide)
  · exact (protect_gate_spec exEnv 0 exDb (some "Bearer garbage")
      "s" rfl).2.2.2.1 "Bearer garbage" "garbage"
      rfl (by decide) (by decide) (by decide)

/-- C6 counterexample: at a concrete store, a present but invalid refresh
token does not produce a 401: the jwt.verify exception propagates through
catchAsync to the global error handler, which answers with the generic
500 response. -/
theorem refresh_invalid_token_counterexample :
    dispatch (refreshTokenRegenerate exEnv 0 exDb (some "garbage"))
      = ([⟨500, [("status", .s "error"), ("message", .s "Something went wrong")]⟩], exDb) ∧
    (∀ resp ∈ (dispatch (refreshTokenRegenerate exEnv 0 exDb (some "garbage"))).1,
      resp.status ≠ 401) := by
  exact ⟨by decide, by decide⟩

/-- C6 amended: a missing refresh token gives 401; an invalid or expired
one makes jwt.verify throw, so the pipeline answers with the generic 500
error response instead of 401; a verifying token whose embedded user still
exists yields a fresh access token while the store is untouched and no new
refresh token is issued; and refresh verification uses the refresh secret
with fallback to the access secret when it is unset (same fallback in
generateRefreshToken). -/
theorem refresh_flow_amended
    (env : Env) (now : Int) (db : List UserDoc) (sec : String)
    (hsec : env.jwtSecret = some sec) :
    (refreshTokenRegenerate env now db none
      = ⟨.ok ⟨401, [("message", .s "Not authorized, refresh token missing.")]⟩, db⟩) ∧
    (∀ tok : String, tok ≠ "" →
      jwtVerify tok (env.jwtRefreshSecret.getD sec) now = none →
      dispatch (refreshTokenRegenerate env now db (some tok))
        = ([⟨500, [("status", .s "error"), ("message", .s "Something went wrong")]⟩], db)) ∧
    (∀ tok : String, ∀ id : Nat, ∀ u : UserDoc, tok ≠ "" →
      jwtVerify tok (env.jwtRefreshSecret.getD sec) now = some id →
      db.find? (fun v => v.id == id) = some u →
      refreshTokenRegenerate env now db (some tok)
        = ⟨.ok ⟨200, [("success", .b true),
            ("accessToken",
              .s (jwtSign u.id sec (now + durationMs (env.jwtExpiresIn.getD "1h"))))]⟩, db⟩) ∧
    (∀ rt : Option String,
      refreshTokenRegenerate { env with jwtRefreshSecret := none } now db rt
        = refreshTokenRegenerate { env with jwtRefreshSecret := env.jwtSecret } now db rt) ∧
    (∀ id : Nat,
      generateRefreshToken { env with jwtRefreshSecret := none } now id
        = generateRefreshToken { env with jwtRefreshSecret := env.jwtSecret } now id) := by
  have hor : (env.jwtRefreshSecret <|> some sec)
      = some (env.jwtRefreshSecret.getD sec) := by
    cases env.jwtRefreshSecret <;> simp
  refine ⟨rfl, ?_, ?_, ?_, ?_⟩
  · intro tok htok hver
    simp only [refreshTokenRegenerate, if_neg htok, hsec, hor, hver]
    rfl
  · intro tok id u htok hver hfind
    simp only [refreshTokenRegenerate, if_neg htok, hsec, hor, hver, hfind,
      generateAccessToken]
  · intro rt
    cases rt with
    | none => rfl
    | some tok =>
      cases henv : env.jwtSecret <;>
        simp [refreshTokenRegenerate, henv, generateAccessToken]
  · intro id
    cases henv : env.jwtSecret <;>
      simp [generateRefreshToken, henv]

/-- Witness for C6 amended at the fixture store: a valid refresh token
mints a fresh access token without touching the store. -/
theorem refresh_flow_amended_witness :
    refreshTokenRegenerate exEnv 0 exDb (some (jwtSign 1 "rs" 100))
      = ⟨.ok ⟨200, [("success", .b true),
          ("accessToken",
            .s (jwtSign exUser.id "s" (0 + durationMs (Option.getD none "1h"))))]⟩, exDb⟩ :=
  (refresh_flow_amended exEnv 0 exDb "s" rfl).2.2.1 (jwtSign 1 "rs" 100) 1 exUser
    (by decide) (by decide) (by decide)

theorem verifyOTP_fail_of_mismatch (db : List UserDoc) (email otp : String)
    (now : Int) (r : Nat) (u : UserDoc)
    (hfind : db.find? (fun v => v.email == email) = some u)
    (hmm : u.resetPasswordToken ≠ some (.sha256Hex otp) ∨
      expiredAt u.resetPasswordExpire now = true) :
    verifyOTP db email otp now r
      = ⟨.ok ⟨400, [("message", .s "Invalid or expired OTP/Code.")]⟩, db⟩ := by
  simp only [verifyOTP, hfind]
  rw [if_pos hmm]

theorem id_or_unchanged (db : List UserDoc) (i : Nat) (f : UserDoc → UserDoc)
    (hf : ∀ v, (f v).id = v.id) :
    ∀ w ∈ updateById db i f, w.id = i ∨ w ∈ db := by
  intro w hw
  rcases mem_updateById.mp hw with ⟨v, hv, heq⟩
  by_cases hid : (v.id == i) = true
  · left
    rw [← heq, if_pos hid, hf v]
    simpa using hid
  · right
    rw [← heq, if_neg hid]
    exact hv

/-- C3: after sendOTP delivers a code to an existing user, the first
verifyOTP call with that code at or before the stored expiry succeeds and
overwrites the stored reset hash with the fresh opaque ticket; any later
verifyOTP call with the same code fails, both against the
post-verification store and against the store left after resetPassword has
consumed the ticket. -/
theorem otp_roundtrip_exactly_once
    (env : Env) (db : List UserDoc) (email : String) (k : Nat)
    (now now1 now3 : Int) (r salt : Nat) (newPw : String) (u : UserDoc)
    (hu : db.find? (fun v => v.email == email) = some u)
    (h1 : now1 ≤ now + 10 * 60 * 1000)
    (hfresh : ∀ v ∈ db, v.resetPasswordToken ≠ some (.randomHex20 r))
    (hpw : newPw ≠ "") :
    (verifyOTP (sendOTP db email k now).db email
        (toString (100000 + k * 900000 / 2 ^ 53)) now1 r).result
      = .ok ⟨200, [("success", .b true),
          ("message", .s "OTP verified successfully. Use the temporary token for reset."),
          ("temporaryResetToken", .rtok (.randomHex20 r))]⟩ ∧
    (verifyOTP (sendOTP db email k now).db email
        (toString (100000 + k * 900000 / 2 ^ 53)) now1 r).db.find?
        (fun v => v.email == email)
      = some { u with resetPasswordToken := some (.randomHex20 r),
                      resetPasswordExpire := some (now + 10 * 60 * 1000) } ∧
    (∀ now2 : Int, ∀ r2 : Nat,
      verifyOTP (verifyOTP (sendOTP db email k now).db email
          (toString (100000 + k * 900000 / 2 ^ 53)) now1 r).db email
        (toString (100000 + k * 900000 / 2 ^ 53)) now2 r2
      = ⟨.ok ⟨400, [("message", .s "Invalid or expired OTP/Code.")]⟩,
         (verifyOTP (sendOTP db email k now).db email
           (toString (100000 + k * 900000 / 2 ^ 53)) now1 r).db⟩) ∧
    (∀ now2 : Int, ∀ r2 : Nat,
      verifyOTP (resetPassword env now3 salt
          (verifyOTP (sendOTP db email k now).db email
            (toString (100000 + k * 900000 / 2 ^ 53)) now1 r).db
          (.randomHex20 r) newPw newPw).db email
        (toString (100000 + k * 900000 / 2 ^ 53)) now2 r2
      = ⟨.ok ⟨400, [("message", .s "Invalid or expired OTP/Code.")]⟩,
         (resetPassword env now3 salt
           (verifyOTP (sendOTP db email k now).db email
             (toString (100000 + k * 900000 / 2 ^ 53)) now1 r).db
           (.randomHex20 r) newPw newPw).db⟩) := by
  have hdb1 := find_email_after_sendOTP db email k now u hu
  have hexp : ¬ expiredAt (some (now + 10 * 60 * 1000)) now1 = true := by
    simp only [expiredAt, decide_eq_true_eq]
    omega
  have hv1 : verifyOTP (sendOTP db email k now).db email
      (toString (100000 + k * 900000 / 2 ^ 53)) now1 r
      = ⟨.ok ⟨200, [("success", .b true),
          ("message", .s "OTP verified successfully. Use the temporary token for reset."),
          ("temporaryResetToken", .rtok (.randomHex20 r))]⟩,
        updateById (sendOTP db email k now).db u.id
          (fun v => userPreSave ["resetPasswordToken"] 0
            { v with resetPasswordToken := some (.randomHex20 r) })⟩ := by
    simp only [verifyOTP, hdb1]
    rw [if_neg (not_or.mpr ⟨not_not_intro rfl, hexp⟩)]
  have hp2 : ∀ v : UserDoc,
      ((fun v : UserDoc => v.email == email)
        (if v.id == u.id then
          userPreSave ["resetPasswordToken"] 0
            { v with resetPasswordToken := some (.randomHex20 r) }
         else v))
        = (fun v : UserDoc => v.email == email) v := by
    intro v
    by_cases hv : (v.id == u.id) = true <;> simp [hv, userPreSave]
  have hdb2 : (verifyOTP (sendOTP db email k now).db email
      (toString (100000 + k * 900000 / 2 ^ 53)) now1 r).db.find?
      (fun v => v.email == email)
      = some { u with resetPasswordToken := some (.randomHex20 r),
                      resetPasswordExpire := some (now + 10 * 60 * 1000) } := by
    rw [hv1]
    show (updateById (sendOTP db email k now).db u.id _).find? _ = _
    rw [find?_updateById _ _ _ _ hp2, hdb1]
    simp only [Option.map_some']
    rw [if_pos (by simp), userPreSave, if_neg (by decide)]
  refine ⟨by rw [hv1], hdb2, ?_, ?_⟩
  · intro now2 r2
    exact verifyOTP_fail_of_mismatch _ _ _ _ _ _ hdb2 (Or.inl (by simp))
  · intro now2 r2
    have hu2mem : ({ u with resetPasswordToken := some (.randomHex20 r),
                            resetPasswordExpire := some (now + 10 * 60 * 1000) } : UserDoc)
        ∈ (verifyOTP (sendOTP db email k now).db email
            (toString (100000 + k * 900000 / 2 ^ 53)) now1 r).db :=
      List.mem_of_find?_eq_some hdb2
    have hsome3 : ∃ w : UserDoc,
        (verifyOTP (sendOTP db email k now).db email
          (toString (100000 + k * 900000 / 2 ^ 53)) now1 r).db.find?
          (fun v => decide (v.resetPasswordToken = some (.randomHex20 r))) = some w := by
      apply Option.isSome_iff_exists.mp
      exact List.find?_isSome.mpr ⟨_, hu2mem, by simp⟩
    obtain ⟨w, hw⟩ := hsome3
    have hwq := List.find?_some hw
    have hwmem := List.mem_of_find?_eq_some hw
    have hwid : w.id = u.id := by
      have hstep1 : w.id = u.id ∨ w ∈ (sendOTP db email k now).db := by
        have hmem2 : w ∈ updateById (sendOTP db email k now).db u.id
            (fun v => userPreSave ["resetPasswordToken"] 0
              { v with resetPasswordToken := some (.randomHex20 r) }) := by
          have hdbeq : (verifyOTP (sendOTP db email k now).db email
              (toString (100000 + k * 900000 / 2 ^ 53)) now1 r).db
              = updateById (sendOTP db email k now).db u.id
                (fun v => userPreSave ["resetPasswordToken"] 0
                  { v with resetPasswordToken := some (.randomHex20 r) }) := by
            rw [hv1]
          rw [← hdbeq]
          exact hwmem
        exact id_or_unchanged _ _ _
          (fun v => by simp [userPreSave]) w hmem2
      rcases hstep1 with h | h
      · exact h
      · have hs1 : sendOTP db email k now
            = ⟨.ok ⟨200, [("success", .b true), ("message", .s "OTP token sent to email."),
                ("test_otp", .s (toString (100000 + k * 900000 / 2 ^ 53)))]⟩,
              updateById db u.id (fun v =>
                userPreSave ["resetPasswordToken", "resetPasswordExpire"] 0
                  { v with
                    resetPasswordToken := some (.sha256Hex (toString (100000 + k * 900000 / 2 ^ 53))),
                    resetPasswordExpire := some (now + 10 * 60 * 1000) })⟩ := by
          simp only [sendOTP]
          rw [hu]
        have hmem1 : w ∈ updateById db u.id (fun v =>
            userPreSave ["resetPasswordToken", "resetPasswordExpire"] 0
              { v with
                resetPasswordToken := some (.sha256Hex (toString (100000 + k * 900000 / 2 ^ 53))),
                resetPasswordExpire := some (now + 10 * 60 * 1000) }) := by
          have : (sendOTP db email k now).db = updateById db u.id (fun v =>
              userPreSave ["resetPasswordToken", "resetPasswordExpire"] 0
                { v with
                  resetPasswordToken := some (.sha256Hex (toString (100000 + k * 900000 / 2 ^ 53))),
                  resetPasswordExpire := some (now + 10 * 60 * 1000) }) := by
            rw [hs1]
          rw [← this]
          exact h
        rcases id_or_unchanged _ _ _
            (fun v => by simp [userPreSave]) w hmem1 with h2 | h2
        · exact h2
        · exact absurd (of_decide_eq_true hwq) (hfresh w h2)
    have hrdb : (resetPassword env now3 salt
        (verifyOTP (sendOTP db email k now).db email
          (toString (100000 + k * 900000 / 2 ^ 53)) now1 r).db
        (.randomHex20 r) newPw newPw).db
        = updateById (verifyOTP (sendOTP db email k now).db email
            (toString (100000 + k * 900000 / 2 ^ 53)) now1 r).db w.id
          (fun v => userPreSave ["password", "resetPasswordToken", "resetPasswordExpire"] salt
            { v with password := .raw newPw,
                     resetPasswordToken := none, resetPasswordExpire := none }) := by
      simp only [resetPassword]
      rw [if_neg (not_or.mpr ⟨hpw, not_not_intro rfl⟩), hw]
      split
      · rename_i heq2
        exact Option.noConfusion heq2
      · rename_i u3 heq2
        obtain rfl := Option.some.inj heq2
        split <;> rfl
    have hp3 : ∀ v : UserDoc,
        ((fun v : UserDoc => v.email == email)
          (if v.id == w.id then
            userPreSave ["password", "resetPasswordToken", "resetPasswordExpire"] salt
              { v with password := .raw newPw,
                       resetPasswordToken := none, resetPasswordExpire := none }
           else v))
          = (fun v : UserDoc => v.email == email) v := by
      intro v
      by_cases hv : (v.id == w.id) = true <;> simp [hv, userPreSave]
    have hdb3 : (resetPassword env now3 salt
        (verifyOTP (sendOTP db email k now).db email
          (toString (100000 + k * 900000 / 2 ^ 53)) now1 r).db
        (.randomHex20 r) newPw newPw).db.find? (fun v => v.email == email)
        = some { u with password := .bcryptHash salt (.raw newPw),
                        resetPasswordToken := none, resetPasswordExpire := none } := by
      rw [hrdb, find?_updateById _ _ _ _ hp3, hdb2]
      simp only [Option.map_some']
      rw [if_pos (by simp [hwid]), userPreSave, if_pos (by decide)]
    exact verifyOTP_fail_of_mismatch _ _ _ _ _ _ hdb3 (Or.inl (by simp))

/-- Witness for C3 at the fixture store: code 100000 sent at time 0,
verified at time 5 with fresh ticket randomness 99, then replayed and
finally replayed after consumption. -/
theorem otp_roundtrip_exactly_once_witness :
    (verifyOTP (sendOTP exDb "a@b.com" 0 0).db "a@b.com"
        (toString (100000 + 0 * 900000 / 2 ^ 53)) 5 99).result
      = .ok ⟨200, [("success", .b true),
          ("message", .s "OTP verified successfully. Use the temporary token for reset."),
          ("temporaryResetToken", .rtok (.randomHex20 99))]⟩ ∧
    verifyOTP (verifyOTP (sendOTP exDb "a@b.com" 0 0).db "a@b.com"
        (toString (100000 + 0 * 900000 / 2 ^ 53)) 5 99).db "a@b.com"
        (toString (100000 + 0 * 900000 / 2 ^ 53)) 6 77
      = ⟨.ok ⟨400, [("message", .s "Invalid or expired OTP/Code.")]⟩,
         (verifyOTP (sendOTP exDb "a@b.com" 0 0).db "a@b.com"
           (toString (100000 + 0 * 900000 / 2 ^ 53)) 5 99).db⟩ := by
  have h := otp_roundtrip_exactly_once exEnv exDb "a@b.com" 0 0 5 7 99 4 "newpw1"
    exUser (by decide) (by omega) (by decide) (by decide)
  exact ⟨h.1, h.2.2.1 6 77⟩

end SafeJourney
